import Mathlib

/-!
Shallow embedding of the data-science insights pipeline's core
(`src/processors/data_processor.py`, class `DataProcessor`) and proofs about it.

Modelling conventions:
* Python floats are modelled as exact rationals (`ℚ`).  Every numeric
  comparison the program performs (similarity against the 0.1 threshold,
  score ordering) is between ratios of small integers, far apart relative to
  double precision, so exact-rational semantics agree with float semantics.
* Python `str.lower` / `str.isalnum` are modelled on their ASCII fragment
  (`Char.toLower` / `Char.isAlphanum`); all data of interest is ASCII.
* A pandas `DataFrame` built from a list of records is `some rows`;
  the column-less empty frame `pd.DataFrame()` is `none`.  Accessing a
  column of the column-less frame raises `KeyError`, modelled as `.error`.
* `DataFrame.sort_values(col, ascending=False)` goes through pandas
  `nargsort`, which reverses the values and row indices BEFORE the
  ascending argsort and reverses the indexer after, so a descending sort
  keeps equal keys in their original row order (numpy's quicksort
  degenerates to a stable insertion sort below 16 elements); it is
  modelled as the equivalent stable descending sort: ascending in the
  lexicographic key (value descending, row index ascending).  Python's
  `sorted(..., reverse=True)` is likewise a stable descending sort,
  modelled as an ascending sort by the key (-value, position).
* Dates are modelled by a day ordinal: `parseDate` accepts `Y-M-D` digit
  strings (the format the collectors persist) and fails on anything else,
  mirroring `pd.to_datetime` raising on malformed input.
* Fallible steps return `Except String`, carrying the Python exception name.
-/

/-- Replace every non-alphanumeric character with a space,
as in `''.join(c if c.isalnum() else ' ' for c in text)`. -/
def cleanChar (c : Char) : Char := if c.isAlphanum then c else ' '

/-- Python `str.split()` with no arguments, over the character list: split
on space runs, drop empty chunks (after `cleanChar` every whitespace
character has become a space).  The accumulator holds the current chunk
reversed. -/
def splitSpacesAux : List Char → List Char → List String
  | acc, [] => if acc.isEmpty then [] else [String.mk acc.reverse]
  | acc, c :: cs =>
    if c = ' ' then
      if acc.isEmpty then splitSpacesAux [] cs
      else String.mk acc.reverse :: splitSpacesAux [] cs
    else splitSpacesAux (c :: acc) cs

/-- Tokens of a text: lower-case (`str.lower`, ASCII fragment),
non-alphanumeric to space, split on whitespace. -/
def tokenize (text : String) : List String :=
  splitSpacesAux [] (text.toList.map (fun c => cleanChar c.toLower))

/-- Python `sep.join(parts)`. -/
def pyJoin (sep : String) : List String → String
  | [] => ""
  | [x] => x
  | x :: y :: xs => x ++ sep ++ pyJoin sep (y :: xs)

/-- The fixed stop-word set `common_words` of `_extract_keywords`. -/
def common_words : List String :=
  ["the", "a", "an", "and", "or", "but", "in", "on", "at", "to",
   "for", "with", "by", "about", "as", "of", "that", "this", "is",
   "are", "was", "were", "be", "been", "being", "have", "has", "had",
   "do", "does", "did", "will", "would", "should", "can", "could"]

/-- Tokens surviving the filter `w not in common_words and len(w) > 3`. -/
def keywordTokens (text : String) : List String :=
  (tokenize text).filter (fun w => !(common_words.contains w) && decide (3 < w.length))

/-- One update of the frequency dictionary: `word_freq[word] = word_freq.get(word, 0) + 1`.
A Python dict keeps keys in insertion (first-occurrence) order. -/
def bump (w : String) : List (String × Nat) → List (String × Nat)
  | [] => [(w, 1)]
  | (x, n) :: rest => if x = w then (x, n + 1) :: rest else (x, n) :: bump w rest

/-- The frequency dictionary of a word list, keys in first-occurrence order. -/
def wordFreq (ws : List String) : List (String × Nat) :=
  ws.foldl (fun acc w => bump w acc) []

/-- Lexicographic comparison by a primary key and a tie-breaking position:
the unique ascending order realized by any stable sort keyed on `f`. -/
def keyOrder {α κ : Type} [LinearOrder κ] (f : α → κ) (g : α → Nat) (a b : α) : Prop :=
  f a < f b ∨ (f a = f b ∧ g a ≤ g b)

instance keyOrderDecRel {α κ : Type} [LinearOrder κ] (f : α → κ) (g : α → Nat) :
    DecidableRel (keyOrder f g) :=
  fun a b => decidable_of_iff (f a < f b ∨ (f a = f b ∧ g a ≤ g b)) Iff.rfl

instance keyOrderTotal {α κ : Type} [LinearOrder κ] (f : α → κ) (g : α → Nat) :
    IsTotal α (keyOrder f g) := by
  constructor
  intro a b
  rcases lt_trichotomy (f a) (f b) with h | h | h
  · exact Or.inl (Or.inl h)
  · rcases Nat.le_total (g a) (g b) with hg | hg
    · exact Or.inl (Or.inr ⟨h, hg⟩)
    · exact Or.inr (Or.inr ⟨h.symm, hg⟩)
  · exact Or.inr (Or.inl h)

instance keyOrderTrans {α κ : Type} [LinearOrder κ] (f : α → κ) (g : α → Nat) :
    IsTrans α (keyOrder f g) := by
  constructor
  intro a b c hab hbc
  rcases hab with h1 | ⟨h1, h1g⟩
  · rcases hbc with h2 | ⟨h2, _⟩
    · exact Or.inl (h1.trans h2)
    · exact Or.inl (h2 ▸ h1)
  · rcases hbc with h2 | ⟨h2, h2g⟩
    · exact Or.inl (h1 ▸ h2)
    · exact Or.inr ⟨h1.trans h2, h1g.trans h2g⟩

/-- Descending lexicographic comparison: primary key descending, tie-breaking
position ascending — the unique order realized by a stable descending sort. -/
def keyOrderDesc {α κ : Type} [LinearOrder κ] (f : α → κ) (g : α → Nat) (a b : α) : Prop :=
  f b < f a ∨ (f a = f b ∧ g a ≤ g b)

instance keyOrderDescDecRel {α κ : Type} [LinearOrder κ] (f : α → κ) (g : α → Nat) :
    DecidableRel (keyOrderDesc f g) :=
  fun a b => decidable_of_iff (f b < f a ∨ (f a = f b ∧ g a ≤ g b)) Iff.rfl

instance keyOrderDescTotal {α κ : Type} [LinearOrder κ] (f : α → κ) (g : α → Nat) :
    IsTotal α (keyOrderDesc f g) := by
  constructor
  intro a b
  rcases lt_trichotomy (f a) (f b) with h | h | h
  · exact Or.inr (Or.inl h)
  · rcases Nat.le_total (g a) (g b) with hg | hg
    · exact Or.inl (Or.inr ⟨h, hg⟩)
    · exact Or.inr (Or.inr ⟨h.symm, hg⟩)
  · exact Or.inl (Or.inl h)

instance keyOrderDescTrans {α κ : Type} [LinearOrder κ] (f : α → κ) (g : α → Nat) :
    IsTrans α (keyOrderDesc f g) := by
  constructor
  intro a b c hab hbc
  rcases hab with h1 | ⟨h1, h1g⟩
  · rcases hbc with h2 | ⟨h2, _⟩
    · exact Or.inl (h2.trans h1)
    · exact Or.inl (h2 ▸ h1)
  · rcases hbc with h2 | ⟨h2, h2g⟩
    · exact Or.inl (by rw [h1]; exact h2)
    · exact Or.inr ⟨h1.trans h2, h1g.trans h2g⟩

/-- The list `l`, rows paired with their positional index, sorted the way
`DataFrame.sort_values(by, ascending=False)` orders rows.  Pandas `nargsort`
reverses values and indices, takes a stable ascending argsort (exact: numpy
insertion sort), and reverses the indexer, which is exactly the stable
descending sort: key descending, original row index ascending on ties. -/
def pandasSortDesc {α κ : Type} [LinearOrder κ] (f : α → κ) (l : List α) : List (Nat × α) :=
  List.insertionSort (keyOrderDesc (fun p => f p.2) Prod.fst) l.enum

/-- Python `sorted(items, key=lambda x: x[1], reverse=True)`: a stable
descending sort by count, i.e. ascending in the key (-count, position). -/
def pySortByCountDesc (l : List (String × Nat)) : List (Nat × (String × Nat)) :=
  List.insertionSort (keyOrder (fun p : Nat × (String × Nat) => -(p.2.2 : ℤ)) Prod.fst) l.enum

/-- The frequency-ranked `(position, (word, count))` pairs of `_extract_keywords`. -/
def topKeywordPairs (text : String) : List (Nat × (String × Nat)) :=
  pySortByCountDesc (wordFreq (keywordTokens text))

/-- The token sequence `[word for word, _ in top_keywords[:max_keywords]]`. -/
def extractKeywordsList (text : String) (max_keywords : Nat) : List String :=
  ((topKeywordPairs text).take max_keywords).map (fun p => p.2.1)

/-- `DataProcessor._extract_keywords`: the comma-joined display digest. -/
def extract_keywords (text : String) (max_keywords : Nat := 10) : String :=
  pyJoin ", " (extractKeywordsList text max_keywords)

/-- `DataProcessor._extract_text_keywords`: tokens of length > 3, duplicates kept. -/
def extract_text_keywords (text : String) : List String :=
  (tokenize text).filter (fun w => decide (3 < w.length))

/-- Deduplication keeping first occurrences: the cardinality-faithful model of
`set(...)` (Python set iteration order is implementation-defined; only the
cardinality and membership of these sets affect the program's numbers). -/
def uniq : List String → List String
  | [] => []
  | x :: xs => x :: (uniq xs).filter (· != x)

/-- Raw repository record as persisted by the repository collector. -/
structure RawRepo where
  name : String
  full_name : String
  description : String
  url : String
  stars : Nat
  forks : Nat
  created_at : String
  updated_at : String
  topics : List String
  primary_language : String
  languages : List (String × Nat)
  readme_content : String
  owner_type : String
  is_archived : Bool
deriving Repr, DecidableEq, Inhabited

/-- Raw dataset record as persisted by the dataset collector. -/
structure RawDataset where
  ref : String
  title : String
  url : String
  description : String
  total_bytes : Nat
  size : String
  download_count : Nat
  view_count : Nat
  vote_count : Nat
  last_updated : String
  tags : List String
  owner_name : String
  license_name : String
  file_count : Option Nat
deriving Repr, DecidableEq, Inhabited

/-- Split a character list at every occurrence of `sep`, keeping empty
chunks, as Python `str.split(sep)` does.  The accumulator holds the current
chunk reversed. -/
def splitCharAux (sep : Char) : List Char → List Char → List String
  | acc, [] => [String.mk acc.reverse]
  | acc, c :: cs =>
    if c = sep then String.mk acc.reverse :: splitCharAux sep [] cs
    else splitCharAux sep (c :: acc) cs

/-- Decimal parse of a nonempty all-digit string (`String.toNat?` behaviour). -/
def parseNatStr (s : String) : Option Nat :=
  if s.toList.isEmpty then none
  else if s.toList.all Char.isDigit then
    some (s.toList.foldl (fun n c => n * 10 + (c.toNat - 48)) 0)
  else none

/-- Day-ordinal date parsing: accepts `Y-M-D` digit strings (the format the
collectors write), fails otherwise, mirroring `pd.to_datetime` raising. -/
def parseDate (s : String) : Option Nat :=
  match splitCharAux '-' [] s.toList with
  | [y, m, d] => do
    let yn ← parseNatStr y
    let mn ← parseNatStr m
    let dn ← parseNatStr d
    if 1 ≤ mn ∧ mn ≤ 12 ∧ 1 ≤ dn ∧ dn ≤ 31 then
      some (yn * 372 + (mn - 1) * 31 + (dn - 1))
    else none
  | _ => none

/-- Round a rational to tenths, half to even (the rounding of Python's
`":.1f"` float formatting). -/
def roundTenths (q : ℚ) : Int :=
  let x := q * 10
  let f := Int.floor x
  let r := x - f
  if r < 1 / 2 then f else if 1 / 2 < r then f + 1 else if f % 2 = 0 then f else f + 1

/-- Render a nonnegative rational with one decimal place, as `f"{v:.1f}"` does. -/
def fmtTenths (q : ℚ) : String :=
  let n := roundTenths q
  toString (n / 10) ++ "." ++ toString (n % 10)

/-- The `language_percentages` column derivation:
`", ".join(f"{lang}: {pct/sum(x.values())*100:.1f}%" ...) if x else ""`.
A nonempty mapping whose byte counts sum to zero raises `ZeroDivisionError`. -/
def languagePercentages (langs : List (String × Nat)) : Except String String :=
  if langs.isEmpty then .ok ""
  else
    let total : Nat := (langs.map (fun p => p.2)).sum
    if total = 0 then .error "ZeroDivisionError"
    else .ok (pyJoin ", " (langs.map (fun p =>
      p.1 ++ ": " ++ fmtTenths ((p.2 : ℚ) / (total : ℚ) * 100) ++ "%")))

/-- Normalized repository row (the columns selected and renamed by
`process_github_data`); `updated_at` is stored parsed, as a day ordinal. -/
structure GithubRow where
  repo_name : String
  repo_full_name : String
  description : String
  repo_url : String
  repo_stars : Nat
  repo_forks : Nat
  created_at : String
  updated_at : Nat
  days_since_update : Int
  primary_language : String
  language_percentages : String
  main_topics : String
  readme_keywords : String
deriving Repr, DecidableEq, Inhabited

/-- Normalized dataset row (the columns selected and renamed by
`process_kaggle_data`). -/
structure KaggleRow where
  dataset_ref : String
  dataset_title : String
  dataset_url : String
  dataset_description : String
  size : String
  download_count : Nat
  view_count : Nat
  vote_count : Nat
  popularity_score : ℚ
  last_updated : Nat
  days_since_update : Int
  dataset_tags : String
  owner_name : String
  license_name : String
deriving Repr, DecidableEq, Inhabited

/-- Per-record derivation of `process_github_data`, in the column order the
source applies: languages, topics, date, readme keywords.  Any failing
derivation propagates as an exception (there is no per-record recovery). -/
def mkGithubRow (today : Nat) (r : RawRepo) : Except String GithubRow :=
  match languagePercentages r.languages with
  | .error e => .error e
  | .ok lp =>
    match parseDate r.updated_at with
    | none => .error ("DateParseError: " ++ r.updated_at)
    | some upd =>
      .ok { repo_name := r.name
            repo_full_name := r.full_name
            description := r.description
            repo_url := r.url
            repo_stars := r.stars
            repo_forks := r.forks
            created_at := r.created_at
            updated_at := upd
            days_since_update := (today : Int) - (upd : Int)
            primary_language := r.primary_language
            language_percentages := lp
            main_topics := pyJoin ", " (r.topics.take 5)
            readme_keywords := extract_keywords r.readme_content 10 }

/-- Per-record derivation of `process_kaggle_data`. -/
def mkKaggleRow (today : Nat) (r : RawDataset) : Except String KaggleRow :=
  match parseDate r.last_updated with
  | none => .error ("DateParseError: " ++ r.last_updated)
  | some upd =>
    .ok { dataset_ref := r.ref
          dataset_title := r.title
          dataset_url := r.url
          dataset_description := r.description
          size := r.size
          download_count := r.download_count
          view_count := r.view_count
          vote_count := r.vote_count
          popularity_score := (r.download_count : ℚ) * (1 / 2)
            + (r.view_count : ℚ) * (3 / 10) + (r.vote_count : ℚ) * (1 / 5)
          last_updated := upd
          days_since_update := (today : Int) - (upd : Int)
          dataset_tags := pyJoin ", " r.tags
          owner_name := r.owner_name
          license_name := r.license_name }

/-- Apply a fallible per-record derivation to every record; the first
exception aborts the whole table, exactly as an exception inside a pandas
column `.apply` aborts the normalization. -/
def mapExcept {α β : Type} (f : α → Except String β) : List α → Except String (List β)
  | [] => .ok []
  | a :: l =>
    match f a with
    | .error e => .error e
    | .ok b =>
      match mapExcept f l with
      | .error e => .error e
      | .ok bs => .ok (b :: bs)

/-- `DataProcessor.process_github_data`: an empty raw collection yields the
column-less empty frame (`none`); otherwise every record is derived. -/
def process_github_data (today : Nat) (data : List RawRepo) :
    Except String (Option (List GithubRow)) :=
  if data.isEmpty then .ok none
  else
    match mapExcept (mkGithubRow today) data with
    | .error e => .error e
    | .ok rows => .ok (some rows)

/-- `DataProcessor.process_kaggle_data`. -/
def process_kaggle_data (today : Nat) (data : List RawDataset) :
    Except String (Option (List KaggleRow)) :=
  if data.isEmpty then .ok none
  else
    match mapExcept (mkKaggleRow today) data with
    | .error e => .error e
    | .ok rows => .ok (some rows)

/-- The repository's keyword set source text and set, from
`f"{repo_name} {description} {main_topics} {readme_keywords}"`. -/
def repoKeywords (r : GithubRow) : List String :=
  uniq (extract_text_keywords
    (r.repo_name ++ " " ++ r.description ++ " " ++ r.main_topics ++ " " ++ r.readme_keywords))

/-- The dataset's keyword set, from
`f"{dataset_title} {dataset_description} {dataset_tags}"`. -/
def datasetKeywords (d : KaggleRow) : List String :=
  uniq (extract_text_keywords
    (d.dataset_title ++ " " ++ d.dataset_description ++ " " ++ d.dataset_tags))

/-- The intersection `repo_keywords.intersection(dataset_keywords)`. -/
def commonKeywords (r : GithubRow) (d : KaggleRow) : List String :=
  (repoKeywords r).filter (fun w => (datasetKeywords d).contains w)

/-- `similarity_score = len(common_keywords) / max(len(repo_keywords), len(dataset_keywords), 1)`,
written with the kernel-computable exact division `Rat.divInt` (provably the
field division of the casts, see `C1_similarity_threshold_range`). -/
def pairSimilarity (r : GithubRow) (d : KaggleRow) : ℚ :=
  Rat.divInt ((commonKeywords r d).length : Int)
    ((max (repoKeywords r).length (max (datasetKeywords d).length 1) : Nat) : Int)

/-- One emitted relationship record. -/
structure Relationship where
  repo_name : String
  repo_url : String
  dataset_title : String
  dataset_url : String
  similarity_score : ℚ
  common_keywords : String
deriving Repr, DecidableEq, Inhabited

/-- The record appended for a kept `(repo, dataset)` pair. -/
def mkRel (r : GithubRow) (d : KaggleRow) : Relationship :=
  { repo_name := r.repo_name
    repo_url := r.repo_url
    dataset_title := d.dataset_title
    dataset_url := d.dataset_url
    similarity_score := pairSimilarity r d
    common_keywords := pyJoin ", " (commonKeywords r d) }

/-- The `relationships` list in pair-generation order (repository-major,
dataset-minor), keeping exactly the pairs with `similarity_score > 0.1`. -/
def generateRels (g : List GithubRow) (k : List KaggleRow) : List Relationship :=
  g.flatMap (fun r => k.filterMap (fun d =>
    if Rat.divInt 1 10 < pairSimilarity r d then some (mkRel r d) else none))

/-- `rel_df.sort_values('similarity_score', ascending=False)`: rows paired
with their original positional index. -/
def sortRels (l : List Relationship) : List (Nat × Relationship) :=
  pandasSortDesc (fun rel => rel.similarity_score) l

/-- `DataProcessor.find_relationships` at frame level: `none` is the
column-less empty frame (returned when either input is empty or when no
pair passes the threshold, since `pd.DataFrame([])` has no columns). -/
def find_relationships (g : Option (List GithubRow)) (k : Option (List KaggleRow)) :
    Option (List (Nat × Relationship)) :=
  match g, k with
  | some gr, some kr =>
    if gr.isEmpty || kr.isEmpty then none
    else
      let rels := generateRels gr kr
      if rels.isEmpty then none else some (sortRels rels)
  | _, _ => none

/-- Row count of a frame (`len(df)`; the column-less frame has zero rows). -/
def frameLen {α : Type} : Option (List α) → Nat
  | none => 0
  | some l => l.length

/-- Rows of a relationship frame. -/
def relFrameList : Option (List (Nat × Relationship)) → List (Nat × Relationship)
  | none => []
  | some l => l

/-- Column mean `df[col].mean()`: a `KeyError` on the column-less frame. -/
def frameMean {α : Type} (f : Option (List α)) (col : String) (val : α → ℚ) :
    Except String ℚ :=
  match f with
  | none => .error ("KeyError: " ++ col)
  | some rows => .ok ((rows.map val).sum / (rows.length : ℚ))

/-- Head of `value_counts()` : values ranked by count descending; pandas
sorts the counts with `sort_values(ascending=False)`, the stable descending
sort over first-appearance order. -/
def modeFirst (vals : List String) : String :=
  match pandasSortDesc (fun p : String × Nat => p.2) (wordFreq vals) with
  | [] => ""
  | p :: _ => p.2.1

/-- Python `str.strip()` on space characters. -/
def pyStrip (s : String) : String :=
  String.mk (((s.toList.dropWhile (· = ' ')).reverse.dropWhile (· = ' ')).reverse)

/-- `DataProcessor._most_common_tag`: re-split the joined tag strings on
commas, strip, count, and take `max(tag_counts.items(), key=...)` — Python's
`max` keeps the first maximal item in insertion order. -/
def most_common_tag (tagStrs : List String) : String :=
  let all_tags := tagStrs.flatMap (fun ts =>
    if ts = "" then [] else (splitCharAux ',' [] ts.toList).map pyStrip)
  match wordFreq all_tags with
  | [] => ""
  | p :: rest => (rest.foldl (fun best q => if best.2 < q.2 then q else best) p).1

/-- The single metrics row. -/
structure Metrics where
  total_github_repos : Nat
  total_kaggle_datasets : Nat
  total_relationships_found : Nat
  avg_github_stars : ℚ
  avg_kaggle_downloads : ℚ
  top_github_language : String
  top_kaggle_tag : String
  processed_date : String
deriving Repr, DecidableEq, Inhabited

/-- The metrics construction of `process_data` (lines 190-199), evaluated in
the order the Python dict literal evaluates its values: the count fields
cannot fail, the two unguarded means raise `KeyError` on a column-less
frame, and only the two mode fields are guarded by `.empty` checks. -/
def buildMetrics (todayStr : String) (g : Option (List GithubRow))
    (k : Option (List KaggleRow)) (rels : Option (List (Nat × Relationship))) :
    Except String Metrics :=
  match frameMean g "repo_stars" (fun r => (r.repo_stars : ℚ)) with
  | .error e => .error e
  | .ok avgStars =>
    match frameMean k "download_count" (fun d => (d.download_count : ℚ)) with
    | .error e => .error e
    | .ok avgDl =>
      .ok { total_github_repos := frameLen g
            total_kaggle_datasets := frameLen k
            total_relationships_found := frameLen rels
            avg_github_stars := avgStars
            avg_kaggle_downloads := avgDl
            top_github_language :=
              match g with
              | none => ""
              | some rows => if rows.isEmpty then "" else modeFirst (rows.map (fun r => r.primary_language))
            top_kaggle_tag :=
              match k with
              | none => ""
              | some rows => if rows.isEmpty then "" else most_common_tag (rows.map (fun d => d.dataset_tags))
            processed_date := todayStr }

/-- `DataProcessor.load_data`: the bare `except Exception` swallows a
missing or unreadable file (modelled `none`) and returns two empty
collections; nothing aborts here. -/
def load_data (gh : Option (List RawRepo)) (kg : Option (List RawDataset)) :
    List RawRepo × List RawDataset :=
  match gh, kg with
  | some g, some k => (g, k)
  | _, _ => ([], [])

/-- `github_df.sort_values('repo_stars', ascending=False).head(50)` with the
`data_source = 'github'` tag: a `KeyError` on the column-less frame. -/
def topGithub (g : Option (List GithubRow)) : Except String (List (GithubRow × String)) :=
  match g with
  | none => .error "KeyError: repo_stars"
  | some rows =>
    .ok ((((pandasSortDesc (fun r => r.repo_stars) rows).map (fun p => p.2)).take 50).map
      (fun r => (r, "github")))

/-- `kaggle_df.sort_values('popularity_score', ascending=False).head(50)`
with the `data_source = 'kaggle'` tag. -/
def topKaggle (k : Option (List KaggleRow)) : Except String (List (KaggleRow × String)) :=
  match k with
  | none => .error "KeyError: popularity_score"
  | some rows =>
    .ok ((((pandasSortDesc (fun d => d.popularity_score) rows).map (fun p => p.2)).take 50).map
      (fun d => (d, "kaggle")))

/-- `relationships_df.head(50)` plus the `data_source = 'relationship'`
assignment: computed in memory, tolerant of the column-less frame. -/
def top_relationships (rels : Option (List (Nat × Relationship))) :
    List ((Nat × Relationship) × String) :=
  (relFrameList rels).take 50 |>.map (fun p => (p, "relationship"))

/-- A persisted tabular artifact: its header columns and its rows. -/
structure Artifact (α : Type) where
  columns : List String
  rows : List α
deriving Repr, DecidableEq, Inhabited

/-- The column header of the relationships frame: exactly the keys of the
dict literal appended in `find_relationships` — no `data_source`. -/
def relationshipColumns : List String :=
  ["repo_name", "repo_url", "dataset_title", "dataset_url",
   "similarity_score", "common_keywords"]

/-- `relationships_df.to_csv("data/processed/dataset_repo_relationships.csv")`:
the full, untruncated, untagged relationship frame is what is written. -/
def relationshipsCsv (rels : Option (List (Nat × Relationship))) : Artifact Relationship :=
  match rels with
  | none => { columns := [], rows := [] }
  | some l => { columns := relationshipColumns, rows := l.map (fun p => p.2) }

/-- The four artifact files written by `process_data`, in source order. -/
def artifactNames : List String :=
  ["top_github_repos.csv", "top_kaggle_datasets.csv",
   "dataset_repo_relationships.csv", "metrics.csv"]

/-- Sequential unguarded `to_csv` calls: the first failing write raises and
aborts; on success the list of written artifacts is returned. -/
def writeSeq (ok : String → Bool) : List String → Except String (List String)
  | [] => .ok []
  | a :: rest =>
    if ok a then
      match writeSeq ok rest with
      | .error e => .error e
      | .ok ws => .ok (a :: ws)
    else .error ("WriteError: " ++ a)

/-- The artifacts whose write is attempted: everything before the first
failure, plus the failing one. -/
def attemptedWrites (ok : String → Bool) : List String → List String
  | [] => []
  | a :: rest => if ok a then a :: attemptedWrites ok rest else [a]

/-- The in-memory results `process_data` leaves behind on success. -/
structure SavedReports where
  top_github : List (GithubRow × String)
  top_kaggle : List (KaggleRow × String)
  top_rels : List ((Nat × Relationship) × String)
  relationships : Artifact Relationship
  metrics : Metrics × String
deriving Repr, Inhabited

/-- `DataProcessor.process_data`, the orchestrating entry point: load (with
swallowed load errors), normalize, match, build the top slices, build the
metrics row, write the four artifacts in sequence, return the output
directory.  `today` is the injected run date (day ordinal and display
string); `writeOk` models which artifact writes succeed. -/
def process_data (today : Nat) (todayStr : String)
    (gh : Option (List RawRepo)) (kg : Option (List RawDataset))
    (writeOk : String → Bool) : Except String (SavedReports × String) :=
  match process_github_data today (load_data gh kg).1 with
  | .error e => .error e
  | .ok gdf =>
    match process_kaggle_data today (load_data gh kg).2 with
    | .error e => .error e
    | .ok kdf =>
      match topGithub gdf with
      | .error e => .error e
      | .ok tg =>
        match topKaggle kdf with
        | .error e => .error e
        | .ok tk =>
          match buildMetrics todayStr gdf kdf (find_relationships gdf kdf) with
          | .error e => .error e
          | .ok m =>
            match writeSeq writeOk artifactNames with
            | .error e => .error e
            | .ok _ =>
              .ok ({ top_github := tg
                     top_kaggle := tk
                     top_rels := top_relationships (find_relationships gdf kdf)
                     relationships := relationshipsCsv (find_relationships gdf kdf)
                     metrics := (m, "metrics") }, "data/processed/")

/-- Concrete normalized repository row whose keyword set is the two-element
set of tokens alpha, beta. -/
def gRowA : GithubRow :=
  { repo_name := "alpha"
    repo_full_name := "u/alpha"
    description := "beta"
    repo_url := "https://example.com/alpha"
    repo_stars := 5
    repo_forks := 1
    created_at := "2024-01-01"
    updated_at := 752928
    days_since_update := 0
    primary_language := "Python"
    language_percentages := ""
    main_topics := ""
    readme_keywords := "" }

/-- Concrete normalized repository row with the singleton keyword set alpha. -/
def gRowB : GithubRow := { gRowA with description := "" }

/-- Concrete normalized dataset row with the singleton keyword set alpha. -/
def kRowA : KaggleRow :=
  { dataset_ref := "ds1"
    dataset_title := "alpha"
    dataset_url := "https://example.com/ds1"
    dataset_description := ""
    size := ""
    download_count := 0
    view_count := 0
    vote_count := 0
    popularity_score := 0
    last_updated := 752928
    days_since_update := 0
    dataset_tags := ""
    owner_name := ""
    license_name := "" }

/-- Concrete normalized dataset row with the singleton keyword set beta. -/
def kRowB : KaggleRow :=
  { kRowA with dataset_ref := "ds2", dataset_title := "beta",
               dataset_url := "https://example.com/ds2" }

/-- A raw repository record every derivation of which succeeds. -/
def rawRepoGood : RawRepo :=
  { name := "alpha"
    full_name := "u/alpha"
    description := "beta"
    url := "https://example.com/alpha"
    stars := 5
    forks := 1
    created_at := "2024-01-01"
    updated_at := "2024-01-02"
    topics := []
    primary_language := "Python"
    languages := []
    readme_content := ""
    owner_type := "User"
    is_archived := false }

/-- A raw repository record whose `updated_at` cannot be parsed. -/
def rawRepoBad : RawRepo := { rawRepoGood with updated_at := "not-a-date" }

/-- A raw dataset record matching the end-to-end example of the spec
(1000 downloads, 500 views, 50 votes). -/
def rawDataset1 : RawDataset :=
  { ref := "ds1"
    title := "alpha"
    url := "https://example.com/ds1"
    description := ""
    total_bytes := 1024
    size := "1.00 KB"
    download_count := 1000
    view_count := 500
    vote_count := 50
    last_updated := "2024-01-01"
    tags := []
    owner_name := "owner"
    license_name := "MIT"
    file_count := none }

/-- The normalized row `rawRepoGood` derives to. -/
def gRowGood : GithubRow :=
  match mkGithubRow 753500 rawRepoGood with
  | .ok row => row
  | .error _ => default

/-- The normalized row `rawDataset1` derives to. -/
def kRowSample : KaggleRow :=
  match mkKaggleRow 753500 rawDataset1 with
  | .ok row => row
  | .error _ => default

/-- One complete successful pipeline run on concrete inputs. -/
def wRun : Except String (SavedReports × String) :=
  process_data 753500 "2026-10-12" (some [rawRepoGood]) (some [rawDataset1]) (fun _ => true)

/-- The reports of that run. -/
def wReports : SavedReports :=
  match wRun with
  | .ok p => p.1
  | .error _ => default

/-- A write-effect model under which only the first artifact write fails. -/
def failFirstWrite : String → Bool := (· != "top_github_repos.csv")

theorem mem_uniq {y : String} : ∀ {l : List String}, y ∈ uniq l ↔ y ∈ l := by
  intro l
  induction l with
  | nil => simp [uniq]
  | cons x xs ih =>
    simp only [uniq, List.mem_cons, List.mem_filter, ih, bne_iff_ne]
    by_cases h : y = x
    · simp [h]
    · simp [h]

theorem mem_bump {w : String} :
    ∀ (acc : List (String × Nat)) (p : String × Nat), p ∈ bump w acc → p.1 = w ∨ p ∈ acc := by
  intro acc
  induction acc with
  | nil =>
    intro p h
    simp only [bump, List.mem_singleton] at h
    exact Or.inl (by rw [h])
  | cons q rest ih =>
    obtain ⟨x, n⟩ := q
    intro p h
    simp only [bump] at h
    by_cases hx : x = w
    · rw [if_pos hx] at h
      rcases List.mem_cons.1 h with h1 | h1
      · exact Or.inl (by rw [h1]; exact hx)
      · exact Or.inr (List.mem_cons_of_mem _ h1)
    · rw [if_neg hx] at h
      rcases List.mem_cons.1 h with h1 | h1
      · exact Or.inr (by rw [h1]; exact List.mem_cons_self _ _)
      · rcases ih p h1 with h2 | h2
        · exact Or.inl h2
        · exact Or.inr (List.mem_cons_of_mem _ h2)

theorem wordFreq_key_mem :
    ∀ (ws : List String) (acc : List (String × Nat)) (p : String × Nat),
      p ∈ ws.foldl (fun a w => bump w a) acc → p.1 ∈ ws ∨ p ∈ acc := by
  intro ws
  induction ws with
  | nil => intro acc p h; exact Or.inr h
  | cons w ws ih =>
    intro acc p h
    simp only [List.foldl_cons] at h
    rcases ih _ p h with h1 | h1
    · exact Or.inl (List.mem_cons_of_mem _ h1)
    · rcases mem_bump _ p h1 with h2 | h2
      · exact Or.inl (by rw [h2]; exact List.mem_cons_self _ _)
      · exact Or.inr h2

theorem mem_wordFreq_key {ws : List String} {p : String × Nat} (h : p ∈ wordFreq ws) :
    p.1 ∈ ws := by
  rcases wordFreq_key_mem ws [] p h with h1 | h1
  · exact h1
  · cases h1

theorem not_mem_of_contains_eq_false {l : List String} {w : String}
    (h : l.contains w = false) : w ∉ l := by
  intro hm
  have h2 : l.contains w = true := by simp [List.contains, hm]
  rw [h] at h2
  cases h2

theorem mapExcept_ok_length {α β : Type} (f : α → Except String β) :
    ∀ (l : List α) (bs : List β), mapExcept f l = .ok bs → bs.length = l.length := by
  intro l
  induction l with
  | nil =>
    intro bs h
    simp only [mapExcept] at h
    cases h
    rfl
  | cons a l ih =>
    intro bs h
    simp only [mapExcept] at h
    cases hf : f a with
    | error e => rw [hf] at h; cases h
    | ok b =>
      rw [hf] at h
      cases hm : mapExcept f l with
      | error e => rw [hm] at h; cases h
      | ok bs2 =>
        rw [hm] at h
        cases h
        simp [ih bs2 hm]

theorem mapExcept_error_of_mem {α β : Type} (f : α → Except String β) :
    ∀ (l : List α) (a : α), a ∈ l → (∃ e, f a = .error e) →
      ∃ e2, mapExcept f l = .error e2 := by
  intro l
  induction l with
  | nil => intro a ha _; cases ha
  | cons b l ih =>
    rintro a ha ⟨e, he⟩
    rcases List.mem_cons.1 ha with h1 | h1
    · subst h1
      exact ⟨e, by simp only [mapExcept, he]⟩
    · cases hf : f b with
      | error e2 => exact ⟨e2, by simp only [mapExcept, hf]⟩
      | ok bb =>
        obtain ⟨e2, he2⟩ := ih a h1 ⟨e, he⟩
        exact ⟨e2, by simp only [mapExcept, hf, he2]⟩

theorem mkGithubRow_error_badDate {today : Nat} {r : RawRepo}
    (h : parseDate r.updated_at = none) : ∃ e, mkGithubRow today r = .error e := by
  unfold mkGithubRow
  cases hl : languagePercentages r.languages with
  | error e => exact ⟨e, rfl⟩
  | ok lp => rw [h]; exact ⟨_, rfl⟩

theorem mkKaggleRow_error_badDate {today : Nat} {r : RawDataset}
    (h : parseDate r.last_updated = none) : ∃ e, mkKaggleRow today r = .error e := by
  unfold mkKaggleRow
  rw [h]
  exact ⟨_, rfl⟩

theorem mem_generateRels {g : List GithubRow} {k : List KaggleRow} {rel : Relationship}
    (h : rel ∈ generateRels g k) :
    ∃ r, r ∈ g ∧ ∃ d, d ∈ k ∧ Rat.divInt 1 10 < pairSimilarity r d ∧ rel = mkRel r d := by
  simp only [generateRels, List.mem_flatMap, List.mem_filterMap] at h
  obtain ⟨r, hr, d, hd, hif⟩ := h
  by_cases hs : Rat.divInt 1 10 < pairSimilarity r d
  · rw [if_pos hs] at hif
    exact ⟨r, hr, d, hd, hs, (Option.some.inj hif).symm⟩
  · rw [if_neg hs] at hif
    cases hif

theorem generateRels_mem {g : List GithubRow} {k : List KaggleRow} {r : GithubRow}
    {d : KaggleRow} (hr : r ∈ g) (hd : d ∈ k) (hs : Rat.divInt 1 10 < pairSimilarity r d) :
    mkRel r d ∈ generateRels g k := by
  simp only [generateRels, List.mem_flatMap, List.mem_filterMap]
  exact ⟨r, hr, d, hd, by rw [if_pos hs]⟩

theorem pairSimilarity_le_one (r : GithubRow) (d : KaggleRow) : pairSimilarity r d ≤ 1 := by
  unfold pairSimilarity
  have hm1 : 1 ≤ max (repoKeywords r).length (max (datasetKeywords d).length 1) :=
    le_trans (le_max_right _ 1) (le_max_right _ _)
  have hc : (commonKeywords r d).length ≤
      max (repoKeywords r).length (max (datasetKeywords d).length 1) := by
    unfold commonKeywords
    exact le_trans (List.length_filter_le _ _) (le_max_left _ _)
  rw [Rat.divInt_eq_div, div_le_one (by exact_mod_cast hm1)]
  exact_mod_cast hc

theorem commonKeywords_ne_nil_of_kept {r : GithubRow} {d : KaggleRow}
    (hs : Rat.divInt 1 10 < pairSimilarity r d) : commonKeywords r d ≠ [] := by
  intro hnil
  rw [pairSimilarity, hnil] at hs
  rw [Rat.divInt_eq_div, Rat.divInt_eq_div] at hs
  norm_num at hs

theorem mem_extract_text_keywords_length {text : String} {w : String}
    (h : w ∈ extract_text_keywords text) : 3 < w.length := by
  simp only [extract_text_keywords, List.mem_filter, decide_eq_true_eq] at h
  exact h.2

theorem pyJoin_head_length_le (sep : String) (w : String) (ws : List String) :
    w.length ≤ (pyJoin sep (w :: ws)).length := by
  cases ws with
  | nil => simp [pyJoin]
  | cons y ys =>
    simp only [pyJoin, String.length_append]
    omega

theorem sortRels_perm (l : List Relationship) : List.Perm (sortRels l) l.enum :=
  List.perm_insertionSort _ _

theorem sortRels_sorted (l : List Relationship) :
    (sortRels l).Pairwise (fun a b =>
      b.2.similarity_score ≤ a.2.similarity_score ∧
      (a.2.similarity_score = b.2.similarity_score → a.1 ≤ b.1)) := by
  have hs := List.sorted_insertionSort
    (keyOrderDesc (fun p : Nat × Relationship => p.2.similarity_score) Prod.fst) l.enum
  refine List.Pairwise.imp ?_ hs
  intro a b hab
  rcases hab with hlt | ⟨heq, hle⟩
  · exact ⟨le_of_lt hlt, fun he => absurd hlt (not_lt.2 (le_of_eq he))⟩
  · exact ⟨le_of_eq heq.symm, fun _ => hle⟩

theorem sortRels_idx_nodup (l : List Relationship) :
    ((sortRels l).map Prod.fst).Nodup := by
  have hperm := (sortRels_perm l).map Prod.fst
  refine hperm.nodup_iff.2 ?_
  rw [List.enum_map_fst]
  exact List.nodup_range _

theorem buildMetrics_ok_total {ts : String} {g : Option (List GithubRow)}
    {k : Option (List KaggleRow)} {rels : Option (List (Nat × Relationship))} {m : Metrics}
    (h : buildMetrics ts g k rels = .ok m) :
    m.total_relationships_found = frameLen rels := by
  unfold buildMetrics at h
  cases h1 : frameMean g "repo_stars" (fun r => (r.repo_stars : ℚ)) with
  | error e => rw [h1] at h; cases h
  | ok a =>
    simp only [h1] at h
    cases h2 : frameMean k "download_count" (fun d => (d.download_count : ℚ)) with
    | error e => rw [h2] at h; cases h
    | ok b =>
      rw [h2] at h
      cases h
      rfl

theorem writeSeq_ok_iff (ok : String → Bool) :
    ∀ names : List String, (∃ ws, writeSeq ok names = .ok ws) ↔ names.all ok = true := by
  intro names
  induction names with
  | nil => simp [writeSeq]
  | cons a rest ih =>
    simp only [List.all_cons, Bool.and_eq_true]
    cases ha : ok a with
    | false =>
      simp only [writeSeq, ha, Bool.false_eq_true, if_false]
      constructor
      · rintro ⟨ws, hw⟩; cases hw
      · rintro ⟨h1, _⟩; cases h1
    | true =>
      simp only [writeSeq, ha, if_true, true_and]
      cases hr : writeSeq ok rest with
      | error e =>
        constructor
        · rintro ⟨ws, hw⟩; cases hw
        · intro hall
          obtain ⟨ws, hws⟩ := ih.2 hall
          rw [hws] at hr
          cases hr
      | ok ws =>
        constructor
        · intro _; exact ih.1 ⟨ws, hr⟩
        · intro _; exact ⟨a :: ws, rfl⟩

theorem attemptedWrites_eq (ok : String → Bool) :
    ∀ names : List String,
      attemptedWrites ok names = names.takeWhile ok ++ (names.dropWhile ok).take 1 := by
  intro names
  induction names with
  | nil => rfl
  | cons a rest ih =>
    cases ha : ok a with
    | false => simp [attemptedWrites, List.takeWhile_cons, List.dropWhile_cons, ha]
    | true => simp [attemptedWrites, List.takeWhile_cons, List.dropWhile_cons, ha, ih]

theorem filterMap_replicate_some {α β : Type} (f : α → Option β) (a : α) (b : β)
    (hf : f a = some b) :
    ∀ n, List.filterMap f (List.replicate n a) = List.replicate n b := by
  intro n
  induction n with
  | zero => rfl
  | succ n ih => simp [List.replicate_succ, List.filterMap_cons, hf, ih]

theorem divInt_one_ten_eq : Rat.divInt 1 10 = (1 : ℚ) / 10 := by
  rw [Rat.divInt_eq_div]
  norm_num

theorem mkRel_score (r : GithubRow) (d : KaggleRow) :
    (mkRel r d).similarity_score = pairSimilarity r d := by
  simp only [mkRel]

/-- C1: for every repository/dataset pair considered by the matcher, the
similarity score is `|intersection| / max(|A|, |B|, 1)` (a defined 0 when
both keyword sets are empty, never a division fault), a pair is kept if and
only if the score strictly exceeds the 0.1 threshold, and every kept
relationship has `similarity_score` in the half-open interval (0, 1]. -/
theorem C1_similarity_threshold_range (g : List GithubRow) (k : List KaggleRow) :
    (∀ r d, pairSimilarity r d = ((commonKeywords r d).length : ℚ) /
        ((max (repoKeywords r).length (max (datasetKeywords d).length 1) : Nat) : ℚ)) ∧
    (∀ r d, repoKeywords r = [] → datasetKeywords d = [] → pairSimilarity r d = 0) ∧
    (∀ r, r ∈ g → ∀ d, d ∈ k →
      (mkRel r d ∈ generateRels g k ↔ 1 / 10 < pairSimilarity r d)) ∧
    (∀ rel, rel ∈ generateRels g k →
      0 < rel.similarity_score ∧ rel.similarity_score ≤ 1) := by
  refine ⟨?_, ?_, ?_, ?_⟩
  · intro r d
    simp only [pairSimilarity]
    rw [Rat.divInt_eq_div]
    simp only [Int.cast_natCast]
  · intro r d h1 _
    simp only [pairSimilarity, commonKeywords, h1, List.filter_nil, List.length_nil]
    rw [Rat.divInt_eq_div]
    simp
  · intro r hr d hd
    constructor
    · intro hmem
      obtain ⟨r2, _, d2, _, hs2, heq⟩ := mem_generateRels hmem
      have hproj : (mkRel r d).similarity_score = (mkRel r2 d2).similarity_score :=
        congrArg Relationship.similarity_score heq
      have hscore : pairSimilarity r d = pairSimilarity r2 d2 :=
        (mkRel_score r d).symm.trans (hproj.trans (mkRel_score r2 d2))
      exact divInt_one_ten_eq.symm.trans_lt (hs2.trans_eq hscore.symm)
    · intro hs
      exact generateRels_mem hr hd (divInt_one_ten_eq.trans_lt hs)
  · intro rel hmem
    obtain ⟨r, _, d, _, hs, heq⟩ := mem_generateRels hmem
    have hscore : rel.similarity_score = pairSimilarity r d :=
      (congrArg Relationship.similarity_score heq).trans (mkRel_score r d)
    have hdiv0 : (0 : ℚ) < Rat.divInt 1 10 := by
      rw [divInt_one_ten_eq]
      norm_num
    have h0 : (0 : ℚ) < pairSimilarity r d := lt_trans hdiv0 hs
    exact ⟨h0.trans_eq hscore.symm, hscore.trans_le (pairSimilarity_le_one r d)⟩

/-- Witness for C1 at a concrete kept pair, whose score is 1/2. -/
theorem C1_witness :
    0 < (mkRel gRowA kRowB).similarity_score ∧ (mkRel gRowA kRowB).similarity_score ≤ 1 :=
  (C1_similarity_threshold_range [gRowA] [kRowB]).2.2.2 (mkRel gRowA kRowB) (by decide)

/-- C2: the matcher's output is a permutation of the kept relationships
sorted by `similarity_score` in descending order, and any two kept
relationships with equal scores appear in their pair-generation order
(repository-major, dataset-minor): pandas `nargsort` reverses rows before
the stable ascending argsort and reverses the indexer after, so the
descending sort is a stable tie-break over the generation order. -/
theorem C2_sorted_desc_stable_ties (g : List GithubRow) (k : List KaggleRow) :
    List.Perm (sortRels (generateRels g k)) (generateRels g k).enum ∧
    ((sortRels (generateRels g k)).map Prod.fst).Nodup ∧
    (sortRels (generateRels g k)).Pairwise (fun a b =>
      b.2.similarity_score ≤ a.2.similarity_score ∧
      (a.2.similarity_score = b.2.similarity_score → a.1 ≤ b.1)) :=
  ⟨sortRels_perm _, sortRels_idx_nodup _, sortRels_sorted _⟩

/-- C3: for every non-empty text and every `max_keywords`, the frequency
extractor returns at most `max_keywords` tokens, each of length strictly
greater than 3 and none in the fixed stop-word set, ordered by descending
frequency with ties broken by first-occurrence order (the enum position in
the insertion-ordered frequency dictionary). -/
theorem C3_frequency_extractor (text : String) (max_keywords : Nat) (hne : text ≠ "") :
    (extractKeywordsList text max_keywords).length ≤ max_keywords ∧
    (∀ w ∈ extractKeywordsList text max_keywords, 3 < w.length ∧ w ∉ common_words) ∧
    extract_keywords text max_keywords = pyJoin ", " (extractKeywordsList text max_keywords) ∧
    extractKeywordsList text max_keywords =
      ((topKeywordPairs text).take max_keywords).map (fun p => p.2.1) ∧
    (topKeywordPairs text).Pairwise (fun a b =>
      b.2.2 ≤ a.2.2 ∧ (a.2.2 = b.2.2 → a.1 ≤ b.1)) := by
  refine ⟨?_, ?_, rfl, rfl, ?_⟩
  · simp only [extractKeywordsList, List.length_map]
    exact List.length_take_le _ _
  · intro w hw
    simp only [extractKeywordsList, List.mem_map] at hw
    obtain ⟨p, hp, hpw⟩ := hw
    have hp2 : p ∈ topKeywordPairs text := List.mem_of_mem_take hp
    simp only [topKeywordPairs, pySortByCountDesc, List.mem_insertionSort] at hp2
    have hsnd : p.2 ∈ wordFreq (keywordTokens text) := by
      have hmap := List.mem_map_of_mem Prod.snd hp2
      rw [List.enum_map_snd] at hmap
      exact hmap
    have hkey : p.2.1 ∈ keywordTokens text := mem_wordFreq_key hsnd
    simp only [keywordTokens, List.mem_filter, Bool.and_eq_true, Bool.not_eq_true',
      decide_eq_true_eq] at hkey
    subst hpw
    exact ⟨hkey.2.2, not_mem_of_contains_eq_false hkey.2.1⟩
  · have hs := List.sorted_insertionSort
      (keyOrder (fun p : Nat × (String × Nat) => -(p.2.2 : ℤ)) Prod.fst)
      (wordFreq (keywordTokens text)).enum
    simp only [topKeywordPairs, pySortByCountDesc]
    refine List.Pairwise.imp ?_ hs
    intro a b hab
    rcases hab with hlt | ⟨heq, hle⟩
    · have hnat : b.2.2 < a.2.2 := by exact_mod_cast neg_lt_neg_iff.1 hlt
      exact ⟨le_of_lt hnat, fun he => absurd hnat (by rw [he]; exact lt_irrefl _)⟩
    · have hnat : a.2.2 = b.2.2 := by exact_mod_cast neg_inj.1 heq
      exact ⟨le_of_eq hnat.symm, fun _ => hle⟩

/-- Witness for C3 on the spec's end-to-end example text. -/
theorem C3_witness :
    (extractKeywordsList "analysis toolkit for data science" 3).length ≤ 3 :=
  (C3_frequency_extractor "analysis toolkit for data science" 3 (by decide)).1

/-- C4 (amended): normalizing an empty raw collection returns the empty
(column-less) frame, and matching with an empty side returns the empty
relationship frame — but building the metrics row over empty normalized
tables RAISES `KeyError: repo_stars`: the unguarded `.mean()` accesses a
column absent from the column-less frame (only the two mode fields are
guarded by `.empty` checks). -/
theorem C4_empty_inputs (today : Nat) (ts : String)
    (g : Option (List GithubRow)) (k : Option (List KaggleRow)) :
    process_github_data today [] = .ok none ∧
    process_kaggle_data today [] = .ok none ∧
    find_relationships none k = none ∧
    find_relationships g none = none ∧
    buildMetrics ts none none none = .error "KeyError: repo_stars" := by
  refine ⟨rfl, rfl, ?_, ?_, rfl⟩
  · cases k <;> rfl
  · cases g <;> rfl

/-- Counterexample to C4 as stated: the metrics row over empty tables
raises instead of returning zero counts and empty-string mode fields. -/
theorem C4_counterexample :
    buildMetrics "2026-10-12" none none none = .error "KeyError: repo_stars" := rfl

/-- C5 (amended): a missing raw source file is caught inside `load_data`,
which returns two empty collections; the run then CONTINUES into
normalization on the empty inputs and only fails later, inside report
building, with `KeyError: repo_stars` — not with a missing-source cause,
and not before normalization. -/
theorem C5_load_error_swallowed (t : Nat) (ts : String) (gh : Option (List RawRepo))
    (kg : Option (List RawDataset)) (ok : String → Bool) (h : gh = none ∨ kg = none) :
    load_data gh kg = ([], []) ∧
    process_data t ts gh kg ok = .error "KeyError: repo_stars" := by
  rcases h with h | h
  · subst h
    cases kg <;> exact ⟨rfl, rfl⟩
  · subst h
    cases gh <;> exact ⟨rfl, rfl⟩

/-- Counterexample to C5 as stated: with the repository file missing the
load step silently yields empty collections, normalization is reached and
succeeds on them, and the eventual failure is a report-building KeyError. -/
theorem C5_counterexample :
    load_data none (some [rawDataset1]) = ([], []) ∧
    process_github_data 753500 ([] : List RawRepo) = .ok none ∧
    process_data 753500 "2026-10-12" none (some [rawDataset1]) (fun _ => true) =
      .error "KeyError: repo_stars" := ⟨rfl, rfl, rfl⟩

/-- Witness for C5 (amended) with the dataset file missing instead. -/
theorem C5_witness :
    load_data (some [rawRepoGood]) none = ([], []) ∧
    process_data 753500 "2026-10-12" (some [rawRepoGood]) none (fun _ => true) =
      .error "KeyError: repo_stars" :=
  C5_load_error_swallowed 753500 "2026-10-12" (some [rawRepoGood]) none (fun _ => true)
    (Or.inr rfl)

/-- C6 (amended): normalization has NO per-record recovery: if any record's
`updated_at` (resp. `last_updated`) fails to parse, the whole normalization
raises and no table is produced; dually, a successful normalization has
processed every record (no drops).  One invalid record therefore aborts the
whole run rather than being dropped with a warning. -/
theorem C6_invalid_record_aborts (today : Nat) (l : List RawRepo) (dl : List RawDataset) :
    (∀ r, r ∈ l → parseDate r.updated_at = none →
      ∃ e, process_github_data today l = .error e) ∧
    (∀ rows, process_github_data today l = .ok (some rows) → rows.length = l.length) ∧
    (∀ d, d ∈ dl → parseDate d.last_updated = none →
      ∃ e, process_kaggle_data today dl = .error e) ∧
    (∀ rows, process_kaggle_data today dl = .ok (some rows) → rows.length = dl.length) := by
  refine ⟨?_, ?_, ?_, ?_⟩
  · intro r hr hbad
    have hne : l.isEmpty = false := by
      cases l with
      | nil => cases hr
      | cons a l2 => rfl
    obtain ⟨e2, he2⟩ := mapExcept_error_of_mem (mkGithubRow today) l r hr
      (mkGithubRow_error_badDate hbad)
    refine ⟨e2, ?_⟩
    simp only [process_github_data, hne, Bool.false_eq_true, if_false, he2]
  · intro rows hok
    by_cases hne : l.isEmpty
    · simp only [process_github_data, hne, if_true] at hok
      cases hok
    · simp only [process_github_data, Bool.not_eq_true] at hne
      simp only [process_github_data, hne, Bool.false_eq_true, if_false] at hok
      cases hm : mapExcept (mkGithubRow today) l with
      | error e => rw [hm] at hok; cases hok
      | ok bs =>
        rw [hm] at hok
        cases hok
        exact mapExcept_ok_length _ l rows hm
  · intro d hd hbad
    have hne : dl.isEmpty = false := by
      cases dl with
      | nil => cases hd
      | cons a l2 => rfl
    obtain ⟨e2, he2⟩ := mapExcept_error_of_mem (mkKaggleRow today) dl d hd
      (mkKaggleRow_error_badDate hbad)
    refine ⟨e2, ?_⟩
    simp only [process_kaggle_data, hne, Bool.false_eq_true, if_false, he2]
  · intro rows hok
    by_cases hne : dl.isEmpty
    · simp only [process_kaggle_data, hne, if_true] at hok
      cases hok
    · simp only [process_kaggle_data, Bool.not_eq_true] at hne
      simp only [process_kaggle_data, hne, Bool.false_eq_true, if_false] at hok
      cases hm : mapExcept (mkKaggleRow today) dl with
      | error e => rw [hm] at hok; cases hok
      | ok bs =>
        rw [hm] at hok
        cases hok
        exact mapExcept_ok_length _ dl rows hm

/-- Counterexample to C6 as stated: a batch with one good and one bad
record aborts wholesale (the good record derives fine on its own, yet no
partial table is produced). -/
theorem C6_counterexample :
    process_github_data 753500 [rawRepoGood, rawRepoBad] = .error "DateParseError: not-a-date" ∧
    mkGithubRow 753500 rawRepoGood = .ok gRowGood := by
  exact ⟨rfl, rfl⟩

/-- Witness for C6 (amended) at a concrete bad record. -/
theorem C6_witness : ∃ e, process_github_data 753500 [rawRepoBad] = .error e :=
  (C6_invalid_record_aborts 753500 [rawRepoBad] []).1 rawRepoBad (by decide) (by decide)

/-- C7 (amended): the persisted `dataset_repo_relationships` artifact is the
FULL relationship table — its row count equals the metrics row's
`total_relationships_found`, with no 50-row truncation — and it carries no
`data_source` column; the truncated, tagged top-50 slice is computed in
memory (`top_relationships`) but never persisted. -/
theorem C7_relationships_artifact (t : Nat) (ts : String) (gh : Option (List RawRepo))
    (kg : Option (List RawDataset)) (ok : String → Bool) (reports : SavedReports)
    (path : String) (h : process_data t ts gh kg ok = .ok (reports, path)) :
    reports.relationships.rows.length = (reports.metrics.1).total_relationships_found ∧
    "data_source" ∉ reports.relationships.columns ∧
    reports.top_rels.length ≤ 50 ∧
    (∀ p ∈ reports.top_rels, p.2 = "relationship") := by
  unfold process_data at h
  cases h1 : process_github_data t (load_data gh kg).1 with
  | error e => rw [h1] at h; cases h
  | ok gdf =>
    simp only [h1] at h
    cases h2 : process_kaggle_data t (load_data gh kg).2 with
    | error e => rw [h2] at h; cases h
    | ok kdf =>
      simp only [h2] at h
      cases h3 : topGithub gdf with
      | error e => rw [h3] at h; cases h
      | ok tg =>
        simp only [h3] at h
        cases h4 : topKaggle kdf with
        | error e => rw [h4] at h; cases h
        | ok tk =>
          simp only [h4] at h
          cases h5 : buildMetrics ts gdf kdf (find_relationships gdf kdf) with
          | error e => rw [h5] at h; cases h
          | ok m =>
            simp only [h5] at h
            cases h6 : writeSeq ok artifactNames with
            | error e => rw [h6] at h; cases h
            | ok ws =>
              simp only [h6] at h
              injection h with h7
              injection h7 with hrec hpath
              subst hrec
              refine ⟨?_, ?_, ?_, ?_⟩
              · dsimp only
                rw [buildMetrics_ok_total h5]
                cases hfr : find_relationships gdf kdf with
                | none => simp [relationshipsCsv, frameLen]
                | some l => simp [relationshipsCsv, frameLen]
              · dsimp only
                cases hfr : find_relationships gdf kdf with
                | none => simp [relationshipsCsv]
                | some l =>
                  simp only [relationshipsCsv]
                  decide
              · dsimp only
                cases hfr : find_relationships gdf kdf with
                | none => simp [top_relationships, relFrameList]
                | some l =>
                  simp only [top_relationships, relFrameList, List.length_map]
                  exact List.length_take_le _ _
              · dsimp only
                intro p hp
                simp only [top_relationships, List.mem_map] at hp
                obtain ⟨q, _, hq⟩ := hp
                rw [← hq]

/-- Counterexample to C7 as stated: with 51 kept pairs the persisted
relationships artifact holds all 51 rows (not the first 50), and its column
list carries no `data_source` column at all. -/
theorem C7_counterexample :
    50 < (relationshipsCsv (find_relationships (some [gRowB])
      (some (List.replicate 51 kRowA)))).rows.length ∧
    "data_source" ∉ (relationshipsCsv (find_relationships (some [gRowB])
      (some (List.replicate 51 kRowA)))).columns := by
  have hsim : Rat.divInt 1 10 < pairSimilarity gRowB kRowA := by decide
  have hgen : generateRels [gRowB] (List.replicate 51 kRowA) =
      List.replicate 51 (mkRel gRowB kRowA) := by
    simp only [generateRels, List.flatMap_cons, List.flatMap_nil, List.append_nil]
    exact filterMap_replicate_some _ _ _ (by rw [if_pos hsim]) 51
  have hne2 : (generateRels [gRowB] (List.replicate 51 kRowA)).isEmpty = false := by
    rw [hgen]
    rfl
  have hfr : find_relationships (some [gRowB]) (some (List.replicate 51 kRowA)) =
      some (sortRels (generateRels [gRowB] (List.replicate 51 kRowA))) := by
    simp only [find_relationships]
    rw [if_neg (by decide), if_neg (by rw [hne2]; exact Bool.false_ne_true)]
  rw [hfr, hgen]
  constructor
  · simp only [relationshipsCsv, List.length_map, sortRels, pandasSortDesc,
      List.length_insertionSort, List.enum_length, List.length_replicate]
    norm_num
  · simp only [relationshipsCsv]
    decide

/-- Witness for C7 (amended) on a complete successful concrete run. -/
theorem C7_witness : "data_source" ∉ wReports.relationships.columns :=
  (C7_relationships_artifact 753500 "2026-10-12" (some [rawRepoGood]) (some [rawDataset1])
    (fun _ => true) wReports "data/processed/" (by rfl)).2.1

/-- C8 (amended): the four artifact writes are sequential and unguarded:
the run succeeds exactly when every write succeeds, and the writes
attempted are precisely those up to and including the FIRST failure —
artifacts after a failed write are never attempted (no partial-failure
tolerance). -/
theorem C8_writes_abort_at_first_failure (ok : String → Bool) :
    ((∃ ws, writeSeq ok artifactNames = .ok ws) ↔ artifactNames.all ok = true) ∧
    attemptedWrites ok artifactNames =
      artifactNames.takeWhile ok ++ (artifactNames.dropWhile ok).take 1 :=
  ⟨writeSeq_ok_iff ok artifactNames, attemptedWrites_eq ok artifactNames⟩

/-- Counterexample to C8 as stated: when the first artifact write fails,
the remaining three artifacts are never attempted. -/
theorem C8_counterexample :
    attemptedWrites failFirstWrite artifactNames = ["top_github_repos.csv"] ∧
    writeSeq failFirstWrite artifactNames = .error "WriteError: top_github_repos.csv" := by
  exact ⟨rfl, rfl⟩

/-- C9: for every normalized dataset record the popularity score is the
weighted blend `0.5·download_count + 0.3·view_count + 0.2·vote_count`, and
the blend is linear in the download counter: adding Δ downloads adds
exactly `0.5·Δ` to the score. -/
theorem C9_popularity_blend_linear (today : Nat) (r : RawDataset) (row : KaggleRow)
    (h : mkKaggleRow today r = .ok row) :
    row.popularity_score = (1 / 2 : ℚ) * (r.download_count : ℚ)
      + (3 / 10 : ℚ) * (r.view_count : ℚ) + (1 / 5 : ℚ) * (r.vote_count : ℚ) ∧
    ∀ Δ : Nat, ∀ row2 : KaggleRow,
      mkKaggleRow today { r with download_count := r.download_count + Δ } = .ok row2 →
      row2.popularity_score = row.popularity_score + (1 / 2 : ℚ) * (Δ : ℚ) := by
  have hpop : ∀ (r2 : RawDataset) (row2 : KaggleRow), mkKaggleRow today r2 = .ok row2 →
      row2.popularity_score = (r2.download_count : ℚ) * (1 / 2)
        + (r2.view_count : ℚ) * (3 / 10) + (r2.vote_count : ℚ) * (1 / 5) := by
    intro r2 row2 h2
    unfold mkKaggleRow at h2
    cases hp : parseDate r2.last_updated with
    | none => rw [hp] at h2; cases h2
    | some upd =>
      rw [hp] at h2
      cases h2
      rfl
  constructor
  · rw [hpop r row h]
    ring
  · intro Δ row2 h2
    rw [hpop _ _ h2, hpop r row h]
    push_cast
    ring

/-- Witness for C9 at the spec's end-to-end example counts
(1000 downloads, 500 views, 50 votes; score 660). -/
theorem C9_witness :
    kRowSample.popularity_score = (1 / 2 : ℚ) * ((1000 : Nat) : ℚ)
      + (3 / 10 : ℚ) * ((500 : Nat) : ℚ) + (1 / 5 : ℚ) * ((50 : Nat) : ℚ) :=
  (C9_popularity_blend_linear 753500 rawDataset1 kRowSample (by rfl)).1

/-- C10: every relationship the matcher emits has a non-empty
`common_keywords` field: a kept pair's score exceeds 0.1 > 0, so the
keyword intersection holds at least one token, and every token has length
greater than 3, so the comma-join is a non-empty string. -/
theorem C10_common_keywords_nonempty (g : List GithubRow) (k : List KaggleRow)
    (rel : Relationship) (h : rel ∈ generateRels g k) :
    rel.common_keywords ≠ "" := by
  obtain ⟨r, _, d, _, hs, heq⟩ := mem_generateRels h
  have hne : commonKeywords r d ≠ [] := commonKeywords_ne_nil_of_kept hs
  have hck : rel.common_keywords = pyJoin ", " (commonKeywords r d) := by
    rw [heq]
    simp only [mkRel]
  rw [hck]
  cases hcc : commonKeywords r d with
  | nil => exact absurd hcc hne
  | cons w ws =>
    have hw : w ∈ commonKeywords r d := by
      rw [hcc]
      exact List.mem_cons_self _ _
    have hw2 : w ∈ repoKeywords r := List.mem_of_mem_filter hw
    have hw3 : w ∈ extract_text_keywords
        (r.repo_name ++ " " ++ r.description ++ " " ++ r.main_topics ++ " "
          ++ r.readme_keywords) := by
      have := hw2
      simp only [repoKeywords] at this
      exact mem_uniq.1 this
    have hwlen : 3 < w.length := mem_extract_text_keywords_length hw3
    have hlen := pyJoin_head_length_le ", " w ws
    intro hcontra
    rw [hcontra] at hlen
    have h0 : ("" : String).length = 0 := rfl
    rw [h0] at hlen
    omega

/-- Witness for C10 at a concrete kept pair. -/
theorem C10_witness : (mkRel gRowA kRowA).common_keywords ≠ "" :=
  C10_common_keywords_nonempty [gRowA] [kRowA] (mkRel gRowA kRowA) (by decide)

/-- Witness for C2 at a concrete input with two equal-score (1/2) pairs:
the sortedness-with-stable-ties property instantiated, together with the
evaluated output showing the first-generated pair (index 0) first. -/
theorem C2_witness :
    (sortRels (generateRels [gRowA] [kRowA, kRowB])).Pairwise (fun a b =>
      b.2.similarity_score ≤ a.2.similarity_score ∧
      (a.2.similarity_score = b.2.similarity_score → a.1 ≤ b.1)) ∧
    find_relationships (some [gRowA]) (some [kRowA, kRowB]) =
      some [(0, mkRel gRowA kRowA), (1, mkRel gRowA kRowB)] :=
  ⟨(C2_sorted_desc_stable_ties [gRowA] [kRowA, kRowB]).2.2, by decide⟩

/-- Witness for C4 (amended) at a concrete reference date. -/
theorem C4_witness : process_github_data 753500 [] = .ok none :=
  (C4_empty_inputs 753500 "2026-10-12" none none).1

/-- Witness for C8 (amended) under the all-writes-succeed effect model. -/
theorem C8_witness :
    attemptedWrites (fun _ => true) artifactNames =
      artifactNames.takeWhile (fun _ => true)
        ++ (artifactNames.dropWhile (fun _ => true)).take 1 :=
  (C8_writes_abort_at_first_failure (fun _ => true)).2
